import Mathlib

/-!
# Verification of the HR dashboard's ETL / reconciliation / write-back logic

Shallow embedding of `app.py` (panorama-rh).  Pure fragments of the source
(duration parsing, currency parsing, commercial-period bucketing, the
left-joins, synthetic-id computation, the annotation-save diff/validation
logic, and the sanitisation of the authenticated user record) are translated
into executable Lean definitions; the theorems below settle the spec's claims
about them.

Conventions:
* pandas/Python floats are modelled as `ℚ` (all claimed values are exact
  decimals);
* Python strings are Lean `String`s; where Python string primitives
  (`split`, `strip`, `replace`, `int(...)`, `float(...)`) are used by the
  source, they are modelled by explicit functions on `List Char` below, so
  that everything evaluates by `decide`;
* a pandas date (`pd.to_datetime` output) is the record `Data` below; the
  date *parser* itself is outside the claims, so ingestion carries an
  `Option Data` (`none` = `NaT`, dropped by `dropna`).
-/

/-! ## Python string primitives used by the source -/

/-- Model of Python `str.split(sep)` for a one-character separator, as used
by `converter_hora_para_decimal`: split on every occurrence of `sep`,
keeping empty fields. -/
def pySplit (sep : Char) : List Char → List (List Char)
  | [] => [[]]
  | c :: rest =>
    let r := pySplit sep rest
    if c = sep then [] :: r
    else
      match r with
      | [] => [[c]]
      | h :: t => (c :: h) :: t

/-- Model of Python `str.strip()` / pandas `.str.strip()`: drop leading and
trailing whitespace. -/
def stripChars (cs : List Char) : List Char :=
  ((cs.dropWhile Char.isWhitespace).reverse.dropWhile Char.isWhitespace).reverse

/-- `String` version of `stripChars` (used where the source calls
`.strip()` on a whole cell). -/
def pyStrip (s : String) : String := ⟨stripChars s.data⟩

/-- Numeric value of a digit string (most significant digit first). -/
def natOfDigits (cs : List Char) : ℕ :=
  cs.foldl (fun a c => a * 10 + (c.toNat - 48)) 0

/-- All-digit, nonempty check feeding `natOfDigits`. -/
def pyNatDigits? (cs : List Char) : Option ℕ :=
  if !cs.isEmpty && cs.all Char.isDigit then some (natOfDigits cs) else none

/-- Model of Python `int(s)`: optional surrounding whitespace, optional sign,
then decimal digits; anything else raises `ValueError`, modelled as `none`.
(Python additionally accepts `_` digit separators; no source input uses
them.) -/
def pyIntCore : List Char → Option ℤ
  | [] => none
  | c :: rest =>
    if c = '+' then (pyNatDigits? rest).map Int.ofNat
    else if c = '-' then (pyNatDigits? rest).map (fun n => -(n : ℤ))
    else (pyNatDigits? (c :: rest)).map Int.ofNat

def pyInt? (cs0 : List Char) : Option ℤ := pyIntCore (stripChars cs0)

/-- Fractionless/fractional decimal body of a float literal:
`digits`, `digits.digits`, `.digits` or `digits.` . -/
def pyFloatBody? (cs : List Char) : Option ℚ :=
  let intPart := cs.takeWhile Char.isDigit
  match cs.dropWhile Char.isDigit with
  | [] => if intPart.isEmpty then none else some (natOfDigits intPart)
  | '.' :: frac =>
    if frac.all Char.isDigit && !(intPart.isEmpty && frac.isEmpty) then
      some ((natOfDigits intPart : ℚ) + (natOfDigits frac : ℚ) / 10 ^ frac.length)
    else none
  | _ => none

/-- Model of `pd.to_numeric(·)` on a cleaned currency cell (equivalently
Python `float(s)` restricted to plain decimal literals: optional whitespace,
optional sign, digits with an optional fractional part; exponents and
`inf`/`nan` never arise from the source's cleaning chain). `none` models the
`errors='coerce'` NaN. -/
def pyFloatCore : List Char → Option ℚ
  | [] => none
  | c :: rest =>
    if c = '+' then pyFloatBody? rest
    else if c = '-' then (pyFloatBody? rest).map (fun q => -q)
    else pyFloatBody? (c :: rest)

def pyFloat? (cs0 : List Char) : Option ℚ := pyFloatCore (stripChars cs0)

/-- Model of Python/pandas `str.replace(pat, repl)` (all occurrences,
left-to-right, non-overlapping).  Structured with an explicit step budget
(`fuel`, initialised to the string length, an upper bound on the number of
steps since every step consumes at least one character) so that it is
structurally recursive and kernel-evaluable. -/
def replaceAllGo (pat repl : List Char) : ℕ → List Char → List Char
  | _, [] => []
  | 0, cs => cs
  | fuel + 1, c :: rest =>
    if 0 < pat.length ∧ (c :: rest).take pat.length = pat then
      repl ++ replaceAllGo pat repl fuel ((c :: rest).drop pat.length)
    else
      c :: replaceAllGo pat repl fuel rest

def replaceAll (pat repl cs : List Char) : List Char :=
  replaceAllGo pat repl cs.length cs

/-! ## Dates and the commercial period (`app.py` 284-293)

`determinar_periodo_comercial` receives a pandas timestamp; `Data` models
its calendar fields.  pandas nanosecond timestamps span the years
1677-2262, so `Valida` also records `1000 ≤ ano ≤ 9999` (this is what makes
`'%Y'` a fixed-width four-digit field). -/

structure Data where
  ano : ℕ
  mes : ℕ
  dia : ℕ
deriving DecidableEq, Repr

def bissexto (a : ℕ) : Bool := (a % 4 == 0 && a % 100 != 0) || (a % 400 == 0)

def diasNoMes (a m : ℕ) : ℕ :=
  if m = 2 then (if bissexto a then 29 else 28)
  else if m = 4 ∨ m = 6 ∨ m = 9 ∨ m = 11 then 30
  else 31

def Data.Valida (d : Data) : Prop :=
  1 ≤ d.mes ∧ d.mes ≤ 12 ∧ 1 ≤ d.dia ∧ d.dia ≤ diasNoMes d.ano d.mes ∧
    1000 ≤ d.ano ∧ d.ano ≤ 9999

instance (d : Data) : Decidable d.Valida :=
  inferInstanceAs (Decidable (1 ≤ d.mes ∧ d.mes ≤ 12 ∧ 1 ≤ d.dia ∧
    d.dia ≤ diasNoMes d.ano d.mes ∧ 1000 ≤ d.ano ∧ d.ano ≤ 9999))

/-- Model of `data + pd.DateOffset(months=1)`: advance the month (rolling
December into January of the next year) and clamp the day-of-month to the
target month's length. -/
def maisUmMes (d : Data) : Data :=
  let a := if d.mes = 12 then d.ano + 1 else d.ano
  let m := if d.mes = 12 then 1 else d.mes + 1
  { ano := a, mes := m, dia := min d.dia (diasNoMes a m) }

/-- `app.py` 284-289: `determinar_periodo_comercial`. -/
def determinar_periodo_comercial (data : Data) : ℕ × ℕ :=
  if data.dia > 20 then
    let data_periodo := maisUmMes data
    (data_periodo.ano, data_periodo.mes)
  else
    (data.ano, data.mes)

/-! ## Duration parsing (`app.py` 108-114, `converter_hora_para_decimal`) -/

/-- `app.py` 108-114. The source first tests `pd.isna(tempo_str)` (only
possible for a missing cell, outside the `String` domain) and membership in
`['00:00:00', '']`; then splits on `':'`, parses parts 0 and 1 (part 2 when
present, else 0 seconds) with `int`, any `ValueError`/`IndexError` giving
`0.0`. -/
def converter_hora_para_decimal (tempo_str : String) : ℚ :=
  if tempo_str = "00:00:00" ∨ tempo_str = "" then 0
  else
    match pyInt? ((pySplit ':' tempo_str.data).getD 0 []),
        pyInt? ((pySplit ':' tempo_str.data).getD 1 []),
        (if 2 < (pySplit ':' tempo_str.data).length
          then pyInt? ((pySplit ':' tempo_str.data).getD 2 []) else some 0) with
    | some horas, some minutos, some segundos =>
      (horas : ℚ) + (minutos : ℚ) / 60 + (segundos : ℚ) / 3600
    | _, _, _ => 0

/-! ## Currency parsing (`app.py` 183-184)

`df_horas[col].astype(str).str.replace('R$','').str.replace('.','')
.str.replace(',','.').str.strip()` followed by
`pd.to_numeric(..., errors='coerce').fillna(0)`. -/

def parse_valor (s : String) : ℚ :=
  match pyFloat? (stripChars
      (replaceAll [','] ['.'] (replaceAll ['.'] [] (replaceAll ['R', '$'] [] s.data)))) with
  | some q => q
  | none => 0

/-! ## Helper lemmas about the string primitives -/

theorem digit_ne_of_isDigit {c x : Char} (h : c.isDigit = true)
    (hx : x.isDigit = false) : c ≠ x := by
  rintro rfl; exact Bool.noConfusion (h.symm.trans hx)

theorem isWhitespace_false_of_isDigit {c : Char} (h : c.isDigit = true) :
    c.isWhitespace = false := by
  by_cases h1 : c = ' '
  · subst h1; exact absurd h (by decide)
  by_cases h2 : c = '\t'
  · subst h2; exact absurd h (by decide)
  by_cases h3 : c = '\r'
  · subst h3; exact absurd h (by decide)
  by_cases h4 : c = '\n'
  · subst h4; exact absurd h (by decide)
  simp [Char.isWhitespace, h1, h2, h3, h4]

theorem dropWhile_no_ws {cs : List Char}
    (h : ∀ c ∈ cs, c.isWhitespace = false) :
    cs.dropWhile Char.isWhitespace = cs := by
  cases cs with
  | nil => rfl
  | cons c rest =>
    rw [List.dropWhile_cons, if_neg]
    simp [h c (List.mem_cons_self c rest)]

theorem stripChars_no_ws {cs : List Char}
    (h : ∀ c ∈ cs, c.isWhitespace = false) : stripChars cs = cs := by
  unfold stripChars
  rw [dropWhile_no_ws h, dropWhile_no_ws (by simpa using fun c hc => h c hc),
    List.reverse_reverse]

theorem stripChars_space_cons {cs : List Char}
    (h : ∀ c ∈ cs, c.isWhitespace = false) : stripChars (' ' :: cs) = cs := by
  unfold stripChars
  rw [List.dropWhile_cons, if_pos (by decide), dropWhile_no_ws h,
    dropWhile_no_ws (by simpa using fun c hc => h c hc), List.reverse_reverse]

theorem stripChars_digits {cs : List Char} (h : cs.all Char.isDigit = true) :
    stripChars cs = cs :=
  stripChars_no_ws fun c hc =>
    isWhitespace_false_of_isDigit (List.all_eq_true.1 h c hc)

theorem pySplit_cons (sep c : Char) (rest : List Char) :
    pySplit sep (c :: rest) =
      if c = sep then [] :: pySplit sep rest
      else
        match pySplit sep rest with
        | [] => [[c]]
        | h :: t => (c :: h) :: t := rfl

theorem pySplit_no_sep {sep : Char} {cs : List Char}
    (h : ∀ c ∈ cs, c ≠ sep) : pySplit sep cs = [cs] := by
  induction cs with
  | nil => rfl
  | cons c rest ih =>
    rw [pySplit_cons, if_neg (h c (List.mem_cons_self c rest)),
      ih (fun x hx => h x (List.mem_cons_of_mem c hx))]

theorem pySplit_sep_append {sep : Char} (a b : List Char)
    (ha : ∀ c ∈ a, c ≠ sep) :
    pySplit sep (a ++ sep :: b) = a :: pySplit sep b := by
  induction a with
  | nil => simp [pySplit_cons]
  | cons c a' ih =>
    simp only [List.cons_append]
    rw [pySplit_cons, if_neg (ha c (List.mem_cons_self c a')),
      ih (fun x hx => ha x (List.mem_cons_of_mem c hx))]

theorem pyNatDigits_digits {cs : List Char} (h1 : cs ≠ [])
    (h2 : cs.all Char.isDigit = true) :
    pyNatDigits? cs = some (natOfDigits cs) := by
  unfold pyNatDigits?
  rw [if_pos]
  simp [h1, h2, List.isEmpty_iff]

theorem pyInt_digits {cs : List Char} (h1 : cs ≠ [])
    (h2 : cs.all Char.isDigit = true) :
    pyInt? cs = some ((natOfDigits cs : ℕ) : ℤ) := by
  unfold pyInt?
  rw [stripChars_digits h2]
  cases cs with
  | nil => exact absurd rfl h1
  | cons c rest =>
    have hc : c.isDigit = true :=
      List.all_eq_true.1 h2 c (List.mem_cons_self c rest)
    simp only [pyIntCore]
    rw [if_neg (digit_ne_of_isDigit hc (by decide)),
      if_neg (digit_ne_of_isDigit hc (by decide)),
      pyNatDigits_digits (by simp) h2]
    rfl

/-! ## C1: commercial-period bucketing -/

/-- C1.  For every valid date, `determinar_periodo_comercial` returns the
next calendar month's (year, month) when the day-of-month is strictly
greater than 20 (December rolling into January of the next year) and the
date's own (year, month) otherwise; in particular 2024-01-21 buckets to
month 2 of 2024, 2024-12-25 to month 1 of 2025, and 2024-01-20 to month 1
of 2024. -/
theorem periodo_comercial_correto :
    (∀ d : Data, d.Valida →
      determinar_periodo_comercial d =
        if 20 < d.dia then
          (if d.mes = 12 then (d.ano + 1, 1) else (d.ano, d.mes + 1))
        else (d.ano, d.mes))
    ∧ determinar_periodo_comercial ⟨2024, 1, 21⟩ = (2024, 2)
    ∧ determinar_periodo_comercial ⟨2024, 12, 25⟩ = (2025, 1)
    ∧ determinar_periodo_comercial ⟨2024, 1, 20⟩ = (2024, 1) := by
  refine ⟨fun d _ => ?_, by decide, by decide, by decide⟩
  by_cases h20 : 20 < d.dia <;> by_cases h12 : d.mes = 12 <;>
    simp [determinar_periodo_comercial, maisUmMes, h20, h12, gt_iff_lt]

/-- Witness for C1 at the year-rollover date 2024-12-25. -/
theorem periodo_comercial_correto_witness :
    Data.Valida ⟨2024, 12, 25⟩ ∧
      determinar_periodo_comercial ⟨2024, 12, 25⟩ = (2025, 1) :=
  ⟨by decide,
    (periodo_comercial_correto.1 ⟨2024, 12, 25⟩ (by decide)).trans (by decide)⟩

/-! ## C5: duration parsing -/

/-- C5.  `converter_hora_para_decimal` maps every well-formed `"H:M:S"`
string (nonempty digit fields) to `H + M/60 + S/3600`, maps `""` and the
placeholder `"00:00:00"` to `0`, and maps every malformed input — `"abc"`
concretely, and in general any string a component of which fails integer
parsing — to `0` (it is a total function, so no error escapes). -/
theorem converter_hora_correto :
    (∀ hs ms ss : List Char, hs ≠ [] → ms ≠ [] → ss ≠ [] →
      hs.all Char.isDigit = true → ms.all Char.isDigit = true →
      ss.all Char.isDigit = true →
      converter_hora_para_decimal ⟨hs ++ ':' :: (ms ++ ':' :: ss)⟩
        = (natOfDigits hs : ℚ) + (natOfDigits ms : ℚ) / 60
          + (natOfDigits ss : ℚ) / 3600)
    ∧ converter_hora_para_decimal "" = 0
    ∧ converter_hora_para_decimal "00:00:00" = 0
    ∧ converter_hora_para_decimal "abc" = 0
    ∧ (∀ s : String,
        (pyInt? ((pySplit ':' s.data).getD 0 []) = none
          ∨ pyInt? ((pySplit ':' s.data).getD 1 []) = none
          ∨ (2 < (pySplit ':' s.data).length
              ∧ pyInt? ((pySplit ':' s.data).getD 2 []) = none)) →
        converter_hora_para_decimal s = 0) := by
  refine ⟨fun hs ms ss hne1 hne2 hne3 hd1 hd2 hd3 => ?_, by decide, by decide,
    by simp +decide [converter_hora_para_decimal, pySplit, pyInt?, pyIntCore,
      pyNatDigits?, stripChars, natOfDigits], ?_⟩
  have hcol1 : ∀ c ∈ hs, c ≠ ':' := fun c hc =>
    digit_ne_of_isDigit (List.all_eq_true.1 hd1 c hc) (by decide)
  have hcol2 : ∀ c ∈ ms, c ≠ ':' := fun c hc =>
    digit_ne_of_isDigit (List.all_eq_true.1 hd2 c hc) (by decide)
  have hcol3 : ∀ c ∈ ss, c ≠ ':' := fun c hc =>
    digit_ne_of_isDigit (List.all_eq_true.1 hd3 c hc) (by decide)
  have hsplit : pySplit ':' (hs ++ ':' :: (ms ++ ':' :: ss)) = [hs, ms, ss] := by
    rw [pySplit_sep_append hs _ hcol1, pySplit_sep_append ms _ hcol2,
      pySplit_no_sep hcol3]
  by_cases hph : (⟨hs ++ ':' :: (ms ++ ':' :: ss)⟩ : String) = "00:00:00"
  · -- the placeholder branch: both sides are 0
    have hdata : hs ++ ':' :: (ms ++ ':' :: ss)
        = ['0', '0', ':', '0', '0', ':', '0', '0'] :=
      congrArg String.data hph
    have h8 : pySplit ':' (hs ++ ':' :: (ms ++ ':' :: ss))
        = [['0', '0'], ['0', '0'], ['0', '0']] := by rw [hdata]; rfl
    rw [hsplit] at h8
    obtain ⟨e1, e2, e3⟩ : hs = ['0', '0'] ∧ ms = ['0', '0'] ∧ ss = ['0', '0'] := by
      simpa using h8
    rw [converter_hora_para_decimal, if_pos (Or.inl hph), e1, e2, e3]
    norm_num [show natOfDigits ['0', '0'] = 0 from rfl]
  · have hemp : (⟨hs ++ ':' :: (ms ++ ':' :: ss)⟩ : String) ≠ "" := by
      intro h
      have := congrArg String.data h
      cases hs with
      | nil => exact hne1 rfl
      | cons c t => simp at this
    rw [converter_hora_para_decimal, if_neg (by
      rintro (h | h)
      exacts [hph h, hemp h])]
    have hdata : (⟨hs ++ ':' :: (ms ++ ':' :: ss)⟩ : String).data
        = hs ++ ':' :: (ms ++ ':' :: ss) := rfl
    simp only [hdata, hsplit, List.getD_cons_zero, List.getD_cons_succ,
      List.length_cons, List.length_nil, pyInt_digits hne1 hd1,
      pyInt_digits hne2 hd2, pyInt_digits hne3 hd3,
      show (2 < 2 + 1) = True by simp, if_true]
    push_cast
    ring
  intro s h
  rw [converter_hora_para_decimal]
  by_cases hph : s = "00:00:00" ∨ s = ""
  · rw [if_pos hph]
  · rw [if_neg hph]
    rcases h with h | h | ⟨hl, h⟩
    · rw [h]
    · rw [h]
      rcases pyInt? ((pySplit ':' s.data).getD 0 []) with _ | m <;> rfl
    · rw [if_pos hl, h]
      rcases pyInt? ((pySplit ':' s.data).getD 0 []) with _ | m <;> try rfl
      all_goals rcases pyInt? ((pySplit ':' s.data).getD 1 []) with _ | k <;> rfl

/-- Witness for C5: `"2:30:00"` parses to 2.5 hours. -/
theorem converter_hora_correto_witness :
    converter_hora_para_decimal "2:30:00" = 5 / 2 := by
  have h := converter_hora_correto.1 ['2'] ['3', '0'] ['0', '0']
    (by decide) (by decide) (by decide) (by decide) (by decide) (by decide)
  rw [show (⟨['2'] ++ ':' :: (['3', '0'] ++ ':' :: ['0', '0'])⟩ : String)
      = "2:30:00" from rfl] at h
  rw [h]
  norm_num [show natOfDigits ['2'] = 2 from rfl,
    show natOfDigits ['3', '0'] = 30 from rfl,
    show natOfDigits ['0', '0'] = 0 from rfl]

/-! ## Lemmas about `replaceAll` -/

theorem replaceAllGo_no_head {pat repl : List Char} {hd : Char}
    (hhd : pat.head? = some hd) :
    ∀ (fuel : ℕ) (cs : List Char), (∀ c ∈ cs, c ≠ hd) →
      replaceAllGo pat repl fuel cs = cs := by
  intro fuel
  induction fuel with
  | zero => intro cs _; cases cs <;> rfl
  | succ fuel ih =>
    intro cs hcs
    cases cs with
    | nil => rfl
    | cons c rest =>
      cases pat with
      | nil => exact absurd hhd (by simp)
      | cons p pt =>
        have hp : p = hd := by simpa using hhd
        rw [replaceAllGo, if_neg, ih rest (fun x hx => hcs x (List.mem_cons_of_mem c hx))]
        rintro ⟨-, htake⟩
        have : c = p := by
          have := congrArg (fun l => l.head?) htake
          simpa [List.take_cons] using this
        exact hcs c (List.mem_cons_self c rest) (this.trans hp)

theorem replaceAllGo_single (p : Char) (repl : List Char) :
    ∀ (fuel : ℕ) (cs : List Char), cs.length ≤ fuel →
      replaceAllGo [p] repl fuel cs
        = cs.flatMap (fun c => if c = p then repl else [c]) := by
  intro fuel
  induction fuel with
  | zero =>
    intro cs hlen
    rw [List.length_eq_zero.1 (Nat.le_zero.1 hlen)]
    rfl
  | succ fuel ih =>
    intro cs hlen
    cases cs with
    | nil => rfl
    | cons c rest =>
      have hrest : rest.length ≤ fuel := by
        simpa [Nat.succ_le_succ_iff] using hlen
      by_cases hc : c = p
      · rw [replaceAllGo, if_pos ⟨by simp, by simp [hc]⟩]
        simp [hc, ih rest hrest]
      · rw [replaceAllGo, if_neg (by
          rintro ⟨-, htake⟩
          exact hc (by simpa using htake))]
        simp [hc, ih rest hrest]

theorem replaceAll_single (p : Char) (repl : List Char) (cs : List Char) :
    replaceAll [p] repl cs
      = cs.flatMap (fun c => if c = p then repl else [c]) :=
  replaceAllGo_single p repl cs.length cs le_rfl

theorem flatMap_single_id {p : Char} {repl : List Char} {cs : List Char}
    (h : ∀ c ∈ cs, c ≠ p) :
    cs.flatMap (fun c => if c = p then repl else [c]) = cs := by
  induction cs with
  | nil => rfl
  | cons c rest ih =>
    rw [List.flatMap_cons, if_neg (h c (List.mem_cons_self c rest)),
      ih (fun x hx => h x (List.mem_cons_of_mem c hx))]
    rfl

theorem replaceAll_cifrao (rest : List Char) (h : ∀ c ∈ rest, c ≠ 'R') :
    replaceAll ['R', '$'] [] ('R' :: '$' :: rest) = rest := by
  show replaceAllGo ['R', '$'] [] (rest.length + 1 + 1) ('R' :: '$' :: rest) = rest
  rw [replaceAllGo, if_pos ⟨by decide, by simp⟩]
  exact replaceAllGo_no_head (by simp) _ rest h

/-! ## Lemmas about `takeWhile`/`dropWhile` over a digit block -/

theorem takeWhile_digit_block {A : List Char} (hA : ∀ c ∈ A, c.isDigit = true)
    {x : Char} (hx : x.isDigit = false) (l : List Char) :
    (A ++ x :: l).takeWhile Char.isDigit = A ∧
      (A ++ x :: l).dropWhile Char.isDigit = x :: l := by
  induction A with
  | nil => simp [List.takeWhile_cons, List.dropWhile_cons, hx]
  | cons a A' ih =>
    have ha := hA a (List.mem_cons_self a A')
    have := ih (fun c hc => hA c (List.mem_cons_of_mem a hc))
    simp [List.takeWhile_cons, List.dropWhile_cons, ha, this.1, this.2]

/-! ## C6: currency parsing -/

/-- C6.  The value-cleaning chain strips the `R$` marker, removes the
thousands-separator dot, converts the decimal comma into a decimal point and
parses the remainder as a number, so that `"R$ " ++ A ++ "." ++ B ++ "," ++ C`
(with digit blocks `A`, `B`, `C`) parses to the joined integer part plus the
decimal fraction; in particular `"R$ 1.234,56"` yields `1234.56`, and the
empty string and in general every string whose cleaned remainder is
non-numeric coerce to `0`. -/
theorem parse_valor_correto :
    (∀ A B C : List Char, A ≠ [] → C ≠ [] →
      A.all Char.isDigit = true → B.all Char.isDigit = true →
      C.all Char.isDigit = true →
      parse_valor ⟨'R' :: '$' :: ' ' :: (A ++ '.' :: (B ++ ',' :: C))⟩
        = (natOfDigits (A ++ B) : ℚ) + (natOfDigits C : ℚ) / 10 ^ C.length)
    ∧ parse_valor "R$ 1.234,56" = 1234.56
    ∧ parse_valor "" = 0
    ∧ (∀ s : String,
        pyFloat? (stripChars (replaceAll [','] ['.']
          (replaceAll ['.'] [] (replaceAll ['R', '$'] [] s.data)))) = none →
        parse_valor s = 0) := by
  refine ⟨fun A B C hA0 hC0 hA hB hC => ?_, ?_, ?_, ?_⟩
  · have hAd := fun c hc => List.all_eq_true.1 hA c hc
    have hBd := fun c hc => List.all_eq_true.1 hB c hc
    have hCd := fun c hc => List.all_eq_true.1 hC c hc
    -- step 1: remove the currency marker "R$"
    have h1 : replaceAll ['R', '$'] []
        ('R' :: '$' :: ' ' :: (A ++ '.' :: (B ++ ',' :: C)))
        = ' ' :: (A ++ '.' :: (B ++ ',' :: C)) := by
      refine replaceAll_cifrao _ ?_
      intro c hc
      rcases List.mem_cons.1 hc with rfl | hc'
      · decide
      rcases List.mem_append.1 hc' with h | h
      · exact digit_ne_of_isDigit (hAd c h) (by decide)
      rcases List.mem_cons.1 h with rfl | h'
      · decide
      rcases List.mem_append.1 h' with h | h
      · exact digit_ne_of_isDigit (hBd c h) (by decide)
      rcases List.mem_cons.1 h with rfl | h'
      · decide
      · exact digit_ne_of_isDigit (hCd c h') (by decide)
    -- step 2: remove the thousands dots
    have h2 : replaceAll ['.'] [] (' ' :: (A ++ '.' :: (B ++ ',' :: C)))
        = ' ' :: (A ++ (B ++ ',' :: C)) := by
      rw [replaceAll_single]
      simp only [List.flatMap_cons, List.flatMap_append]
      rw [flatMap_single_id (fun c hc => digit_ne_of_isDigit (hAd c hc) (by decide)),
        flatMap_single_id (fun c hc => digit_ne_of_isDigit (hBd c hc) (by decide)),
        flatMap_single_id (fun c hc => digit_ne_of_isDigit (hCd c hc) (by decide))]
      simp
    -- step 3: decimal comma becomes a decimal point
    have h3 : replaceAll [','] ['.'] (' ' :: (A ++ (B ++ ',' :: C)))
        = ' ' :: (A ++ (B ++ '.' :: C)) := by
      rw [replaceAll_single]
      simp only [List.flatMap_cons, List.flatMap_append]
      rw [flatMap_single_id (fun c hc => digit_ne_of_isDigit (hAd c hc) (by decide)),
        flatMap_single_id (fun c hc => digit_ne_of_isDigit (hBd c hc) (by decide)),
        flatMap_single_id (fun c hc => digit_ne_of_isDigit (hCd c hc) (by decide))]
      simp
    -- step 4: strip the residual leading space
    have hnows : ∀ c ∈ A ++ (B ++ '.' :: C), c.isWhitespace = false := by
      intro c hc
      rcases List.mem_append.1 hc with h | h
      · exact isWhitespace_false_of_isDigit (hAd c h)
      rcases List.mem_append.1 h with h | h
      · exact isWhitespace_false_of_isDigit (hBd c h)
      rcases List.mem_cons.1 h with rfl | h'
      · decide
      · exact isWhitespace_false_of_isDigit (hCd c h')
    have h4 : stripChars (' ' :: (A ++ (B ++ '.' :: C))) = A ++ (B ++ '.' :: C) :=
      stripChars_space_cons hnows
    -- step 5: numeric conversion
    have htd := takeWhile_digit_block
      (A := A ++ B) (fun c hc => (List.mem_append.1 hc).elim (hAd c) (hBd c))
      (x := '.') (by decide) C
    have h5 : pyFloat? (A ++ (B ++ '.' :: C))
        = some ((natOfDigits (A ++ B) : ℚ) + (natOfDigits C : ℚ) / 10 ^ C.length) := by
      unfold pyFloat?
      rw [stripChars_no_ws hnows]
      obtain ⟨a, A', rfl⟩ : ∃ a A', A = a :: A' := by
        cases A with
        | nil => exact absurd rfl hA0
        | cons a A' => exact ⟨a, A', rfl⟩
      have ha : a.isDigit = true := hAd a (List.mem_cons_self a A')
      simp only [List.cons_append, pyFloatCore]
      rw [if_neg (digit_ne_of_isDigit ha (by decide)),
        if_neg (digit_ne_of_isDigit ha (by decide))]
      unfold pyFloatBody?
      rw [show a :: (A' ++ (B ++ '.' :: C)) = (a :: A' ++ B) ++ '.' :: C by simp]
      rw [htd.1, htd.2]
      simp [hC, List.isEmpty_iff]
    unfold parse_valor
    rw [show (⟨'R' :: '$' :: ' ' :: (A ++ '.' :: (B ++ ',' :: C))⟩ : String).data
      = 'R' :: '$' :: ' ' :: (A ++ '.' :: (B ++ ',' :: C)) from rfl]
    rw [h1, h2, h3, h4, h5]
  · simp +decide [parse_valor, replaceAll, replaceAllGo, pyFloat?, pyFloatCore,
      pyFloatBody?, stripChars, natOfDigits]
    norm_num
  · simp +decide [parse_valor, replaceAll, replaceAllGo, pyFloat?, pyFloatCore,
      pyFloatBody?, stripChars, natOfDigits]
  · intro s h
    rw [parse_valor, h]

/-- Witness for C6 at `"R$ 12.000,75"`. -/
theorem parse_valor_correto_witness :
    parse_valor "R$ 12.000,75" = 12000.75 := by
  have h := parse_valor_correto.1 ['1', '2'] ['0', '0', '0'] ['7', '5']
    (by decide) (by decide) (by decide) (by decide) (by decide)
  rw [show (⟨'R' :: '$' :: ' ' ::
      (['1', '2'] ++ '.' :: (['0', '0', '0'] ++ ',' :: ['7', '5']))⟩ : String)
      = "R$ 12.000,75" from rfl] at h
  rw [h]
  norm_num [show natOfDigits (['1', '2'] ++ ['0', '0', '0']) = 12000 from rfl,
    show natOfDigits ['1', '2', '0', '0', '0'] = 12000 from rfl,
    show natOfDigits ['7', '5'] = 75 from rfl]

/-! ## Synthetic id: `nome + '_' + data.strftime('%Y-%m-%d')` (`app.py` 267)

`strftime` zero-pads: `%Y` to four digits (pandas timestamps always have
four-digit years), `%m`/`%d` to two. -/

def digitChar (n : ℕ) : Char := Char.ofNat (48 + n)

def pad4 (n : ℕ) : String :=
  ⟨[digitChar (n / 1000 % 10), digitChar (n / 100 % 10),
    digitChar (n / 10 % 10), digitChar (n % 10)]⟩

def pad2 (n : ℕ) : String := ⟨[digitChar (n / 10 % 10), digitChar (n % 10)]⟩

def strftimeYMD (d : Data) : String :=
  pad4 d.ano ++ "-" ++ pad2 d.mes ++ "-" ++ pad2 d.dia

def id_registro_original (nome : String) (data : Data) : String :=
  nome ++ "_" ++ strftimeYMD data

theorem digitChar_inj : ∀ x, x < 10 → ∀ y, y < 10 →
    digitChar x = digitChar y → x = y := by decide

theorem diasNoMes_le_31 (a m : ℕ) : diasNoMes a m ≤ 31 := by
  unfold diasNoMes
  split_ifs <;> omega

theorem strftimeYMD_data_length (d : Data) : (strftimeYMD d).data.length = 10 := by
  simp [strftimeYMD, String.data_append, pad4, pad2]

theorem strftimeYMD_inj {d1 d2 : Data} (h1 : d1.Valida) (h2 : d2.Valida)
    (h : strftimeYMD d1 = strftimeYMD d2) : d1 = d2 := by
  obtain ⟨-, hm1, -, hdle1, -, hy1⟩ := h1
  obtain ⟨-, hm2, -, hdle2, -, hy2⟩ := h2
  have hdia1 : d1.dia ≤ 31 := le_trans hdle1 (diasNoMes_le_31 _ _)
  have hdia2 : d2.dia ≤ 31 := le_trans hdle2 (diasNoMes_le_31 _ _)
  have hl := congrArg String.data h
  simp only [strftimeYMD, String.data_append, pad4, pad2,
    show ("-" : String).data = ['-'] from rfl, List.cons_append, List.nil_append,
    List.cons.injEq, and_true] at hl
  obtain ⟨e1, e2, e3, e4, -, e5, e6, -, e7, e8⟩ := hl
  have d10 : ∀ n : ℕ, ∀ k : ℕ, 0 < k → n % 10 < 10 := fun n k _ => Nat.mod_lt n (by norm_num)
  have g1 := digitChar_inj _ (Nat.mod_lt _ (by norm_num)) _ (Nat.mod_lt _ (by norm_num)) e1
  have g2 := digitChar_inj _ (Nat.mod_lt _ (by norm_num)) _ (Nat.mod_lt _ (by norm_num)) e2
  have g3 := digitChar_inj _ (Nat.mod_lt _ (by norm_num)) _ (Nat.mod_lt _ (by norm_num)) e3
  have g4 := digitChar_inj _ (Nat.mod_lt _ (by norm_num)) _ (Nat.mod_lt _ (by norm_num)) e4
  have g5 := digitChar_inj _ (Nat.mod_lt _ (by norm_num)) _ (Nat.mod_lt _ (by norm_num)) e5
  have g6 := digitChar_inj _ (Nat.mod_lt _ (by norm_num)) _ (Nat.mod_lt _ (by norm_num)) e6
  have g7 := digitChar_inj _ (Nat.mod_lt _ (by norm_num)) _ (Nat.mod_lt _ (by norm_num)) e7
  have g8 := digitChar_inj _ (Nat.mod_lt _ (by norm_num)) _ (Nat.mod_lt _ (by norm_num)) e8
  have hano : d1.ano = d2.ano := by omega
  have hmes : d1.mes = d2.mes := by omega
  have hdia : d1.dia = d2.dia := by omega
  cases d1; cases d2
  simp_all

theorem id_registro_original_inj {n1 n2 : String} {d1 d2 : Data}
    (h1 : d1.Valida) (h2 : d2.Valida) :
    id_registro_original n1 d1 = id_registro_original n2 d2
      ↔ (n1 = n2 ∧ d1 = d2) := by
  constructor
  · intro h
    have hl := congrArg String.data h
    simp only [id_registro_original, String.data_append,
      show ("_" : String).data = ['_'] from rfl, List.append_assoc,
      List.singleton_append] at hl
    obtain ⟨hn, ht⟩ := List.append_inj' hl
      (by simp only [List.length_cons, strftimeYMD_data_length])
    refine ⟨String.ext hn, strftimeYMD_inj h1 h2 (String.ext ?_)⟩
    simpa using ht
  · rintro ⟨rfl, rfl⟩; rfl

/-! ## Ingestion / normalization / reconciliation (`app.py` 148-196, 250-295)

A raw overtime row after the Schema Normalizer's column renames
(`colaborador → nome`, `valor total → valor_total`, …); string cells are
carried verbatim, the `data` cell is the `pd.to_datetime(..., errors='coerce')`
result (`none` = `NaT`). -/

structure LinhaHoras where
  nome : String
  filial : String
  data : Option Data
  qtd_he_50 : String
  qtd_he_100 : String
  valor_he_50 : String
  valor_he_100 : String
  valor_total : String
deriving DecidableEq, Repr

/-- A row of the `OPERACAO` role-lookup tab. -/
structure LinhaOperacao where
  nome : String
  cargo : String
deriving DecidableEq, Repr

/-- A normalized overtime row (post cleaning, pre role-merge). -/
structure Registro where
  nome : String
  filial : String
  data : Data
  qtd_he_50 : String
  qtd_he_100 : String
  valor_he_50 : ℚ
  valor_he_100 : ℚ
  valor_total : ℚ
deriving DecidableEq, Repr

/-- A normalized overtime row joined with its role (`cargo`). -/
structure RegistroCargo where
  reg : Registro
  cargo : String
deriving DecidableEq, Repr

/-- A row of the relational `anotacoes` table. -/
structure Anotacao where
  id_registro_original : String
  texto_anotacao : String
  nome_usuario : String
  categoria : String
  justificativa : String
deriving DecidableEq, Repr

/-- A fully reconciled record as held in `df_principal`. -/
structure RegistroFinal where
  nome : String
  filial : String
  data : Data
  cargo : String
  qtd_he_50 : String
  qtd_he_100 : String
  valor_he_50 : ℚ
  valor_he_100 : ℚ
  valor_total : ℚ
  qtd_he_50_dec : ℚ
  qtd_he_100_dec : ℚ
  id_registro_original : String
  texto_anotacao : String
  nome_usuario : String
  categoria : String
  justificativa : String
  ano_comercial : ℕ
  mes_comercial : ℕ
deriving DecidableEq, Repr

/-- `app.py` 177: `.astype(str).str.strip().str.upper()` on the join key. -/
def normalizar_nome (s : String) : String := ⟨(stripChars s.data).map Char.toUpper⟩

/-- `app.py` 177-187: clean the employee name, parse the currency columns,
and drop rows whose date failed to parse (`dropna(subset=['data','nome'])`;
the `nome` column cannot be null after `astype(str)`). -/
def normalizar_horas (linhas : List LinhaHoras) : List Registro :=
  linhas.filterMap fun l =>
    match l.data with
    | none => none
    | some d => some
      { nome := normalizar_nome l.nome
        filial := l.filial
        data := d
        qtd_he_50 := l.qtd_he_50
        qtd_he_100 := l.qtd_he_100
        valor_he_50 := parse_valor l.valor_he_50
        valor_he_100 := parse_valor l.valor_he_100
        valor_total := parse_valor l.valor_total }

/-- `app.py` 189-190: pandas left-merge of the overtime rows with the
role-lookup on `nome`, followed by `fillna('Não Classificado')`: an
unmatched left row survives with the sentinel role, a matched one fans out
to one row per matching lookup row. -/
def merge_cargo (horas : List Registro) (operacao : List LinhaOperacao) :
    List RegistroCargo :=
  horas.flatMap fun h =>
    match operacao.filter (fun o => o.nome == h.nome) with
    | [] => [{ reg := h, cargo := "Não Classificado" }]
    | ms => ms.map fun o => { reg := h, cargo := o.cargo }

/-- `app.py` 148-196 (`carregar_horas_e_operacao`) as a pure function: the
operação join key is normalized exactly like the overtime one (line 178). -/
def carregar_horas_e_operacao (linhas : List LinhaHoras)
    (operacao : List LinhaOperacao) : List RegistroCargo :=
  merge_cargo (normalizar_horas linhas)
    (operacao.map fun o => { o with nome := normalizar_nome o.nome })

/-- One reconciled record: decimal hour columns (line 265-266), the
synthetic id (line 267), annotation fields from the left-join with
`fillna('')` (lines 269-281), and the commercial period (lines 284-293). -/
def montar_registro_final (rc : RegistroCargo)
    (texto usuario categoria justificativa : String) : RegistroFinal :=
  { nome := rc.reg.nome
    filial := rc.reg.filial
    data := rc.reg.data
    cargo := rc.cargo
    qtd_he_50 := rc.reg.qtd_he_50
    qtd_he_100 := rc.reg.qtd_he_100
    valor_he_50 := rc.reg.valor_he_50
    valor_he_100 := rc.reg.valor_he_100
    valor_total := rc.reg.valor_total
    qtd_he_50_dec := converter_hora_para_decimal rc.reg.qtd_he_50
    qtd_he_100_dec := converter_hora_para_decimal rc.reg.qtd_he_100
    id_registro_original := id_registro_original rc.reg.nome rc.reg.data
    texto_anotacao := texto
    nome_usuario := usuario
    categoria := categoria
    justificativa := justificativa
    ano_comercial := (determinar_periodo_comercial rc.reg.data).1
    mes_comercial := (determinar_periodo_comercial rc.reg.data).2 }

/-- `app.py` 250-295 (`carregar_e_processar_dados_iniciais`): the full
Ingestor → Normalizer → Reconciler pipeline.  The annotation left-merge on
`id_registro_original` fans out like any pandas merge; an unmatched row gets
`''` in every annotation field (the code's `fillna('')` / empty-annotations
branch). -/
def carregar_e_processar_dados_iniciais (linhas : List LinhaHoras)
    (operacao : List LinhaOperacao) (anotacoes : List Anotacao) :
    List RegistroFinal :=
  (carregar_horas_e_operacao linhas operacao).flatMap fun rc =>
    match anotacoes.filter
        (fun a => a.id_registro_original
          == id_registro_original rc.reg.nome rc.reg.data) with
    | [] => [montar_registro_final rc "" "" "" ""]
    | ms => ms.map fun a =>
        montar_registro_final rc a.texto_anotacao a.nome_usuario
          a.categoria a.justificativa

/-! ## C7: synthetic id — shape and uniqueness -/

/-- C7.  Every reconciled record's `id_registro_original` is its (already
upper-cased, trimmed) employee name, `"_"`, and the date as `YYYY-MM-DD`;
and on valid dates this id is unique per (name, date) pair: two ids agree
exactly when both the name and the date agree. -/
theorem id_sintetico_correto :
    (∀ (linhas : List LinhaHoras) (operacao : List LinhaOperacao)
        (anotacoes : List Anotacao),
      ∀ r ∈ carregar_e_processar_dados_iniciais linhas operacao anotacoes,
        r.id_registro_original = r.nome ++ "_" ++ strftimeYMD r.data)
    ∧ (∀ (n1 n2 : String) (d1 d2 : Data), d1.Valida → d2.Valida →
        (id_registro_original n1 d1 = id_registro_original n2 d2
          ↔ (n1 = n2 ∧ d1 = d2))) := by
  constructor
  · intro linhas operacao anotacoes r hr
    obtain ⟨rc, hrc, hmem⟩ :=
      List.mem_flatMap.1 hr
    rcases hfil : anotacoes.filter
        (fun a => a.id_registro_original
          == id_registro_original rc.reg.nome rc.reg.data) with _ | ⟨a, as⟩
    · rw [hfil] at hmem
      simp only [List.mem_singleton] at hmem
      subst hmem
      rfl
    · rw [hfil] at hmem
      obtain ⟨a', -, rfl⟩ := List.mem_map.1 hmem
      rfl
  · exact fun n1 n2 d1 d2 h1 h2 => id_registro_original_inj h1 h2

/-- Witness for C7: uniqueness instantiated on 2024-03-15, plus the
concrete shape of the id. -/
theorem id_sintetico_correto_witness :
    Data.Valida ⟨2024, 3, 15⟩ ∧
      id_registro_original "ZE" ⟨2024, 3, 15⟩ = "ZE_2024-03-15" ∧
      (id_registro_original "ZE" ⟨2024, 3, 15⟩
          = id_registro_original "ZE" ⟨2024, 3, 15⟩
        ↔ ("ZE" = "ZE" ∧ (⟨2024, 3, 15⟩ : Data) = ⟨2024, 3, 15⟩)) :=
  ⟨by decide, by decide,
    id_sintetico_correto.2 "ZE" "ZE" ⟨2024, 3, 15⟩ ⟨2024, 3, 15⟩
      (by decide) (by decide)⟩

/-! ## C8: the pipeline is a deterministic function of its inputs -/

/-- C8.  Re-running the Ingestor → Normalizer → Reconciler pipeline on
identical source data yields the identical list of synthetic ids and the
identical aggregate sums (total value, total decimal overtime hours): the
pipeline is a pure function of the three inputs. -/
theorem pipeline_deterministico (l1 l2 : List LinhaHoras)
    (o1 o2 : List LinhaOperacao) (a1 a2 : List Anotacao)
    (hl : l1 = l2) (ho : o1 = o2) (ha : a1 = a2) :
    (carregar_e_processar_dados_iniciais l1 o1 a1).map
        (fun r => r.id_registro_original)
      = (carregar_e_processar_dados_iniciais l2 o2 a2).map
        (fun r => r.id_registro_original)
    ∧ ((carregar_e_processar_dados_iniciais l1 o1 a1).map
        (fun r => r.valor_total)).sum
      = ((carregar_e_processar_dados_iniciais l2 o2 a2).map
        (fun r => r.valor_total)).sum
    ∧ ((carregar_e_processar_dados_iniciais l1 o1 a1).map
        (fun r => r.qtd_he_50_dec + r.qtd_he_100_dec)).sum
      = ((carregar_e_processar_dados_iniciais l2 o2 a2).map
        (fun r => r.qtd_he_50_dec + r.qtd_he_100_dec)).sum := by
  subst hl; subst ho; subst ha
  exact ⟨rfl, rfl, rfl⟩

/-- Witness for C8 on a one-row load. -/
theorem pipeline_deterministico_witness :
    (carregar_e_processar_dados_iniciais
        [⟨" ze ", "VAL", some ⟨2024, 3, 15⟩, "01:30:00", "00:00:00",
          "R$ 50,00", "R$ 0,00", "R$ 100,00"⟩] [] []).map
        (fun r => r.id_registro_original)
      = (carregar_e_processar_dados_iniciais
        [⟨" ze ", "VAL", some ⟨2024, 3, 15⟩, "01:30:00", "00:00:00",
          "R$ 50,00", "R$ 0,00", "R$ 100,00"⟩] [] []).map
        (fun r => r.id_registro_original)
    ∧ ((carregar_e_processar_dados_iniciais
        [⟨" ze ", "VAL", some ⟨2024, 3, 15⟩, "01:30:00", "00:00:00",
          "R$ 50,00", "R$ 0,00", "R$ 100,00"⟩] [] []).map
        (fun r => r.valor_total)).sum
      = ((carregar_e_processar_dados_iniciais
        [⟨" ze ", "VAL", some ⟨2024, 3, 15⟩, "01:30:00", "00:00:00",
          "R$ 50,00", "R$ 0,00", "R$ 100,00"⟩] [] []).map
        (fun r => r.valor_total)).sum
    ∧ ((carregar_e_processar_dados_iniciais
        [⟨" ze ", "VAL", some ⟨2024, 3, 15⟩, "01:30:00", "00:00:00",
          "R$ 50,00", "R$ 0,00", "R$ 100,00"⟩] [] []).map
        (fun r => r.qtd_he_50_dec + r.qtd_he_100_dec)).sum
      = ((carregar_e_processar_dados_iniciais
        [⟨" ze ", "VAL", some ⟨2024, 3, 15⟩, "01:30:00", "00:00:00",
          "R$ 50,00", "R$ 0,00", "R$ 100,00"⟩] [] []).map
        (fun r => r.qtd_he_50_dec + r.qtd_he_100_dec)).sum :=
  pipeline_deterministico _ _ _ _ _ _ rfl rfl rfl

/-! ## C4: unclassified employees and the diagnostics panel (`app.py` 791-814) -/

/-- `app.py` 791: `df_filtrado[df_filtrado['cargo'] == 'Não Classificado']`. -/
def nao_classificados (rs : List RegistroCargo) : List RegistroCargo :=
  rs.filter (fun r => r.cargo == "Não Classificado")

/-- One row of the diagnostics summary table. -/
structure ResumoLinha where
  nome : String
  filial : String
  custo_total : ℚ
  ocorrencias : ℕ
deriving DecidableEq, Repr

/-- The group of unclassified rows sharing one (nome, filial) key. -/
def grupo_nao_classificado (rs : List RegistroCargo) (nome filial : String) :
    List RegistroCargo :=
  (nao_classificados rs).filter
    (fun r => r.reg.nome == nome && r.reg.filial == filial)

/-- `app.py` 797-800: `groupby(['nome','filial']).agg(Custo_Total=('valor_total','sum'),
Ocorrencias=('nome','count'))` followed by the descending sort on
`Custo_Total`.  (pandas emits group keys in sorted key order and our key list
in first-occurrence order; the two differ only by a permutation, which the
final value sort reshuffles anyway.  The `R$` pretty-printing of lines
802-804 is display-only and not modelled.) -/
def resumo_problemas (rs : List RegistroCargo) : List ResumoLinha :=
  (((nao_classificados rs).map (fun r => (r.reg.nome, r.reg.filial))).dedup.map
    (fun k =>
      { nome := k.1
        filial := k.2
        custo_total := ((grupo_nao_classificado rs k.1 k.2).map
          (fun r => r.reg.valor_total)).sum
        ocorrencias := (grupo_nao_classificado rs k.1 k.2).length
        : ResumoLinha })).mergeSort
    (fun a b => decide (b.custo_total ≤ a.custo_total))

/-- C4.  An overtime row whose employee name matches no role-lookup entry
survives the left-merge with the sentinel role `"Não Classificado"` (the
spec's "Unclassified"), every merged row carrying its data has that
sentinel, and the diagnostics report has a row for its (employee, branch)
group with the group's summed `valor_total` and occurrence count. -/
theorem nao_classificado_correto (horas : List Registro)
    (operacao : List LinhaOperacao) (h : Registro) (hmem : h ∈ horas)
    (hnomatch : operacao.filter (fun o => o.nome == h.nome) = []) :
    ({ reg := h, cargo := "Não Classificado" } : RegistroCargo)
        ∈ merge_cargo horas operacao
    ∧ (∀ rc ∈ merge_cargo horas operacao, rc.reg = h →
        rc.cargo = "Não Classificado")
    ∧ ∃ linha ∈ resumo_problemas (merge_cargo horas operacao),
        linha.nome = h.nome ∧ linha.filial = h.filial
        ∧ linha.custo_total
          = ((grupo_nao_classificado (merge_cargo horas operacao)
              h.nome h.filial).map (fun r => r.reg.valor_total)).sum
        ∧ linha.ocorrencias
          = (grupo_nao_classificado (merge_cargo horas operacao)
              h.nome h.filial).length := by
  have hself : ({ reg := h, cargo := "Não Classificado" } : RegistroCargo)
      ∈ merge_cargo horas operacao := by
    refine List.mem_flatMap.2 ⟨h, hmem, ?_⟩
    rw [hnomatch]
    simp
  refine ⟨hself, ?_, ?_⟩
  · intro rc hrc hreg
    obtain ⟨h'', hh'', hin⟩ := List.mem_flatMap.1 hrc
    rcases hfil : operacao.filter (fun o => o.nome == h''.nome) with _ | ⟨o, os⟩
    · rw [hfil] at hin
      simp only [List.mem_singleton] at hin
      subst hin
      rfl
    · rw [hfil] at hin
      obtain ⟨o', -, rfl⟩ := List.mem_map.1 hin
      exfalso
      have : h'' = h := hreg
      subst this
      rw [hnomatch] at hfil
      exact List.noConfusion hfil
  · have hnc : ({ reg := h, cargo := "Não Classificado" } : RegistroCargo)
        ∈ nao_classificados (merge_cargo horas operacao) :=
      List.mem_filter.2 ⟨hself, by simp⟩
    have hkey : (h.nome, h.filial)
        ∈ ((nao_classificados (merge_cargo horas operacao)).map
          (fun r => (r.reg.nome, r.reg.filial))).dedup :=
      List.mem_dedup.2 (List.mem_map.2 ⟨_, hnc, rfl⟩)
    refine ⟨_, List.mem_mergeSort.2 (List.mem_map.2 ⟨(h.nome, h.filial), hkey, rfl⟩),
      rfl, rfl, rfl, rfl⟩

/-- Witness for C4: one overtime row for `"ZE"` at branch `"VAL"` with an
empty role table. -/
theorem nao_classificado_correto_witness :
    (({ reg := ⟨"ZE", "VAL", ⟨2024, 3, 15⟩, "01:00:00", "00:00:00", 50, 0, 50⟩,
        cargo := "Não Classificado" } : RegistroCargo)
      ∈ merge_cargo [⟨"ZE", "VAL", ⟨2024, 3, 15⟩, "01:00:00", "00:00:00", 50, 0, 50⟩] [])
    ∧ (∀ rc ∈ merge_cargo
        [⟨"ZE", "VAL", ⟨2024, 3, 15⟩, "01:00:00", "00:00:00", 50, 0, 50⟩] [],
        rc.reg = ⟨"ZE", "VAL", ⟨2024, 3, 15⟩, "01:00:00", "00:00:00", 50, 0, 50⟩ →
        rc.cargo = "Não Classificado")
    ∧ ∃ linha ∈ resumo_problemas (merge_cargo
        [⟨"ZE", "VAL", ⟨2024, 3, 15⟩, "01:00:00", "00:00:00", 50, 0, 50⟩] []),
        linha.nome = "ZE" ∧ linha.filial = "VAL"
        ∧ linha.custo_total
          = ((grupo_nao_classificado (merge_cargo
              [⟨"ZE", "VAL", ⟨2024, 3, 15⟩, "01:00:00", "00:00:00", 50, 0, 50⟩] [])
              "ZE" "VAL").map (fun r => r.reg.valor_total)).sum
        ∧ linha.ocorrencias
          = (grupo_nao_classificado (merge_cargo
              [⟨"ZE", "VAL", ⟨2024, 3, 15⟩, "01:00:00", "00:00:00", 50, 0, 50⟩] [])
              "ZE" "VAL").length :=
  nao_classificado_correto _ [] _ (List.mem_singleton.2 rfl) rfl

/-! ## C9: the 16% payroll-overhead projection (`app.py` 360-412)

The sidebar filter chain: year (`ano_comercial`), then month
(`mes_comercial`, `none` = "Todos"), then branch (`none` = "Todas"). -/

def df_ano (df : List RegistroFinal) (ano : ℕ) : List RegistroFinal :=
  df.filter (fun r => r.ano_comercial == ano)

def df_periodo (df : List RegistroFinal) (ano : ℕ) (mes : Option ℕ) :
    List RegistroFinal :=
  match mes with
  | none => df_ano df ano
  | some m => (df_ano df ano).filter (fun r => r.mes_comercial == m)

def df_filtrado (df : List RegistroFinal) (ano : ℕ) (mes : Option ℕ)
    (filial : Option String) : List RegistroFinal :=
  match filial with
  | none => df_periodo df ano mes
  | some f => (df_periodo df ano mes).filter (fun r => r.filial == f)

/-- `app.py` 411: `total_he_geral = df_filtrado['valor_total'].sum()`. -/
def total_he_geral (df : List RegistroFinal) (ano : ℕ) (mes : Option ℕ)
    (filial : Option String) : ℚ :=
  ((df_filtrado df ano mes filial).map (fun r => r.valor_total)).sum

/-- `app.py` 412: `custo_total_com_encargos = total_he_geral * 1.16`. -/
def custo_total_com_encargos (df : List RegistroFinal) (ano : ℕ)
    (mes : Option ℕ) (filial : Option String) : ℚ :=
  total_he_geral df ano mes filial * 1.16

/-- C9.  For every dataset and every filter selection, the displayed
"Projeção c/ Encargos (16%)" figure equals exactly 1.16 times the sum of
`valor_total` over the records passing the year/month/branch filter. -/
theorem custo_encargos_correto (df : List RegistroFinal) (ano : ℕ)
    (mes : Option ℕ) (filial : Option String) :
    custo_total_com_encargos df ano mes filial
      = 1.16 * ((df.filter (fun r =>
          r.ano_comercial == ano
          && (match mes with | none => true | some m => r.mes_comercial == m)
          && (match filial with | none => true | some f => r.filial == f))).map
            (fun r => r.valor_total)).sum := by
  rcases mes with _ | m <;> rcases filial with _ | f <;>
    simp [custo_total_com_encargos, total_he_geral, df_filtrado, df_periodo,
      df_ano, List.filter_filter, Bool.and_assoc, Bool.and_comm,
      Bool.and_left_comm, mul_comm]

/-! ## C2 and C3: the annotation save path (`app.py` 739-788)

One grid row as seen by the save handler: the synthetic id (the editor's
index), the render-time snapshot of the two editable columns
(`df_anotacao_original_indexed`), and their edited values.  The code's
`fillna('')` on both sides makes every cell a plain string. -/

structure LinhaAnotacao where
  id_registro_original : String
  categoria_original : String
  justificativa_original : String
  categoria : String
  justificativa : String
deriving DecidableEq, Repr

/-- `app.py` 747-750: the rows whose edited category or justification
differs from the snapshot. -/
def alteracoes (rows : List LinhaAnotacao) : List LinhaAnotacao :=
  rows.filter fun r =>
    r.categoria != r.categoria_original
      || r.justificativa != r.justificativa_original

/-- `app.py` 753-754: changed rows with a non-blank category and a blank
justification (after stripping). -/
def erro_geral (rows : List LinhaAnotacao) : List LinhaAnotacao :=
  (alteracoes rows).filter fun r =>
    pyStrip r.categoria != "" && pyStrip r.justificativa == ""

/-- One SQL statement issued inside the save transaction. -/
inductive ChamadaBanco where
  | delete (id : String)
  | upsert (id usuario categoria justificativa : String)
deriving DecidableEq, Repr

/-- The observable outcome of pressing "Salvar Anotações Editadas". -/
inductive ResultadoSalvar where
  | erro (mensagem : String)
  | salvo (cs : List ChamadaBanco) (mensagem : String)
  | semAlteracoes
deriving DecidableEq, Repr

/-- `app.py` 761-781: the statement for one altered row — `DELETE` when the
stripped category and justification are both empty, otherwise the
`INSERT ... ON CONFLICT ... DO UPDATE` upsert with the stripped values. -/
def chamada_para (usuario : String) (r : LinhaAnotacao) : ChamadaBanco :=
  if pyStrip r.categoria = "" ∧ pyStrip r.justificativa = "" then
    ChamadaBanco.delete r.id_registro_original
  else
    ChamadaBanco.upsert r.id_registro_original usuario
      (pyStrip r.categoria) (pyStrip r.justificativa)

/-- `app.py` 739-788: the save handler.  Validation failure short-circuits
with a fixed `st.error` message; otherwise each altered row gets exactly its
statement, in grid order, and the success toast reports the count. -/
def salvar_anotacoes (usuario : String) (rows : List LinhaAnotacao) :
    ResultadoSalvar :=
  if erro_geral rows ≠ [] then
    ResultadoSalvar.erro "❌ Erro: Toda anotação deve ter justificativa preenchida."
  else if alteracoes rows ≠ [] then
    ResultadoSalvar.salvo ((alteracoes rows).map (chamada_para usuario))
      (toString (alteracoes rows).length ++ " alterações foram salvas com sucesso!")
  else
    ResultadoSalvar.semAlteracoes

/-- The store calls an outcome carries (none unless the save proceeded). -/
def chamadas : ResultadoSalvar → List ChamadaBanco
  | .salvo cs _ => cs
  | _ => []

def id_chamada : ChamadaBanco → String
  | .delete id => id
  | .upsert id _ _ _ => id

theorem id_chamada_chamada_para (u : String) (r : LinhaAnotacao) :
    id_chamada (chamada_para u r) = r.id_registro_original := by
  unfold chamada_para
  split <;> rfl

theorem countP_filter_unique {rows : List LinhaAnotacao} {r : LinhaAnotacao}
    (hr : r ∈ rows)
    (hnd : (rows.map (fun x => x.id_registro_original)).Nodup)
    {pred : LinhaAnotacao → Bool} (hpred : pred r = true) :
    (rows.filter pred).countP
      (fun x => x.id_registro_original == r.id_registro_original) = 1 := by
  induction rows with
  | nil => cases hr
  | cons a l ih =>
    simp only [List.map_cons, List.nodup_cons] at hnd
    obtain ⟨hna, hndl⟩ := hnd
    rcases List.mem_cons.1 hr with rfl | hrl
    · rw [List.filter_cons, if_pos hpred, List.countP_cons]
      have hzero : (l.filter pred).countP
          (fun x => x.id_registro_original == r.id_registro_original) = 0 := by
        rw [List.countP_eq_zero]
        intro x hx
        have hxl : x ∈ l := (List.mem_filter.1 hx).1
        have : x.id_registro_original ≠ r.id_registro_original := by
          intro he
          exact hna (he ▸ List.mem_map.2 ⟨x, hxl, rfl⟩)
        simp [this]
      rw [hzero]
      simp
    · have hne : a.id_registro_original ≠ r.id_registro_original := by
        intro he
        exact hna (he ▸ List.mem_map.2 ⟨r, hrl, rfl⟩)
      rw [List.filter_cons]
      by_cases hpa : pred a = true
      · rw [if_pos hpa, List.countP_cons, ih hrl hndl]
        simp [hne]
      · rw [if_neg hpa, ih hrl hndl]

/-- C2.  On a save that passes validation (no changed row pairs a non-blank
category with a blank justification) over rows with distinct synthetic ids:
no changed rows means no store call at all; otherwise the issued calls are
exactly one per changed row in order — a `delete` keyed by the row's
synthetic id when the stripped category and justification are both blank,
else a single upsert keyed by the synthetic id carrying the (stripped)
edited category and justification; each changed row's id appears in exactly
one call and an unchanged row's id in none. -/
theorem salvar_politica_escrita (usuario : String) (rows : List LinhaAnotacao)
    (hval : erro_geral rows = [])
    (hnd : (rows.map (fun r => r.id_registro_original)).Nodup) :
    (alteracoes rows = [] →
      salvar_anotacoes usuario rows = ResultadoSalvar.semAlteracoes)
    ∧ (alteracoes rows ≠ [] →
      salvar_anotacoes usuario rows = ResultadoSalvar.salvo
        ((alteracoes rows).map (fun r =>
          if pyStrip r.categoria = "" ∧ pyStrip r.justificativa = "" then
            ChamadaBanco.delete r.id_registro_original
          else
            ChamadaBanco.upsert r.id_registro_original usuario
              (pyStrip r.categoria) (pyStrip r.justificativa)))
        (toString (alteracoes rows).length
          ++ " alterações foram salvas com sucesso!"))
    ∧ (∀ r ∈ rows,
        (r.categoria != r.categoria_original
          || r.justificativa != r.justificativa_original) = true →
        ((chamadas (salvar_anotacoes usuario rows)).filter
          (fun c => id_chamada c == r.id_registro_original)).length = 1)
    ∧ (∀ r ∈ rows,
        (r.categoria != r.categoria_original
          || r.justificativa != r.justificativa_original) = false →
        (chamadas (salvar_anotacoes usuario rows)).filter
          (fun c => id_chamada c == r.id_registro_original) = []) := by
  have hnot : ¬(erro_geral rows ≠ []) := fun hx => hx hval
  have hcham : ∀ (_ : alteracoes rows ≠ []),
      chamadas (salvar_anotacoes usuario rows)
        = (alteracoes rows).map (chamada_para usuario) := by
    intro hne
    unfold salvar_anotacoes
    rw [if_neg hnot, if_pos hne]
    rfl
  refine ⟨?_, ?_, ?_, ?_⟩
  · intro halt
    unfold salvar_anotacoes
    rw [if_neg hnot, if_neg (fun hx => hx halt)]
  · intro hne
    unfold salvar_anotacoes
    rw [if_neg hnot, if_pos hne]
    rfl
  · intro r hr hch
    have hralt : r ∈ alteracoes rows := List.mem_filter.2 ⟨hr, hch⟩
    have hne : alteracoes rows ≠ [] := List.ne_nil_of_mem hralt
    rw [hcham hne, ← List.countP_eq_length_filter, List.countP_map]
    have hcomp : ((fun c => id_chamada c == r.id_registro_original)
          ∘ chamada_para usuario)
        = fun x => x.id_registro_original == r.id_registro_original := by
      funext x
      simp [Function.comp, id_chamada_chamada_para]
    rw [hcomp]
    exact countP_filter_unique hr hnd hch
  · intro r hr hch
    by_cases hne : alteracoes rows = []
    · have hsem : salvar_anotacoes usuario rows
          = ResultadoSalvar.semAlteracoes := by
        unfold salvar_anotacoes
        rw [if_neg hnot, if_neg (fun hx => hx hne)]
      rw [hsem]
      rfl
    · rw [hcham hne, List.filter_eq_nil_iff]
      intro c hc
      obtain ⟨x, hx, rfl⟩ := List.mem_map.1 hc
      have hxrows : x ∈ rows := (List.mem_filter.1 hx).1
      have hxch : (x.categoria != x.categoria_original
          || x.justificativa != x.justificativa_original) = true :=
        (List.mem_filter.1 hx).2
      have hxr : x ≠ r := by
        rintro rfl
        rw [hch] at hxch
        exact Bool.noConfusion hxch
      have hidne : x.id_registro_original ≠ r.id_registro_original :=
        fun he => hxr (List.inj_on_of_nodup_map hnd hxrows hr he)
      simp [id_chamada_chamada_para, hidne]

/-- Witness for C2: editing only a justification yields one upsert with
the unchanged category, clearing both columns yields one delete, and the
untouched row yields nothing. -/
theorem salvar_politica_escrita_witness :
    salvar_anotacoes "gestor"
      [⟨"ANA_2024-03-15", "Cliente", "cobertura", "Cliente", "cobertura extra"⟩,
       ⟨"BOB_2024-03-15", "Outros", "x", "", ""⟩,
       ⟨"CAF_2024-03-15", "", "", "", ""⟩]
      = ResultadoSalvar.salvo
          [ChamadaBanco.upsert "ANA_2024-03-15" "gestor" "Cliente" "cobertura extra",
           ChamadaBanco.delete "BOB_2024-03-15"]
          "2 alterações foram salvas com sucesso!" := by
  have h := (salvar_politica_escrita "gestor"
      [⟨"ANA_2024-03-15", "Cliente", "cobertura", "Cliente", "cobertura extra"⟩,
       ⟨"BOB_2024-03-15", "Outros", "x", "", ""⟩,
       ⟨"CAF_2024-03-15", "", "", "", ""⟩]
      (by decide) (by decide)).2.1 (by decide)
  rw [h]
  decide

/-- C3 (amended).  When some changed row has a non-blank category and a
blank justification, the save is blocked with the handler's fixed, generic
error message and zero store calls are issued. -/
theorem salvar_validacao_bloqueia (usuario : String)
    (rows : List LinhaAnotacao) (hbad : erro_geral rows ≠ []) :
    salvar_anotacoes usuario rows
      = ResultadoSalvar.erro "❌ Erro: Toda anotação deve ter justificativa preenchida."
    ∧ chamadas (salvar_anotacoes usuario rows) = [] := by
  unfold salvar_anotacoes
  rw [if_pos hbad]
  exact ⟨rfl, rfl⟩

/-- Counterexample for C3 as stated: two saves with *different* invalid
rows produce the very same error outcome — the fixed message carries no
information about which rows are invalid, so the error does not "report the
invalid rows". -/
theorem salvar_validacao_contraexemplo :
    erro_geral [⟨"ANA_2024-03-15", "", "", "Cliente", ""⟩]
      = [⟨"ANA_2024-03-15", "", "", "Cliente", ""⟩]
    ∧ erro_geral [⟨"BOB_2024-03-16", "", "", "Operações", ""⟩]
      = [⟨"BOB_2024-03-16", "", "", "Operações", ""⟩]
    ∧ (⟨"ANA_2024-03-15", "", "", "Cliente", ""⟩ : LinhaAnotacao)
      ≠ ⟨"BOB_2024-03-16", "", "", "Operações", ""⟩
    ∧ salvar_anotacoes "gestor" [⟨"ANA_2024-03-15", "", "", "Cliente", ""⟩]
      = salvar_anotacoes "gestor" [⟨"BOB_2024-03-16", "", "", "Operações", ""⟩] := by
  decide

/-- Witness for the amended C3 at a concrete invalid row. -/
theorem salvar_validacao_bloqueia_witness :
    salvar_anotacoes "gestor" [⟨"ANA_2024-03-15", "", "", "Cliente", ""⟩]
      = ResultadoSalvar.erro "❌ Erro: Toda anotação deve ter justificativa preenchida."
    ∧ chamadas (salvar_anotacoes "gestor"
        [⟨"ANA_2024-03-15", "", "", "Cliente", ""⟩]) = [] :=
  salvar_validacao_bloqueia "gestor" _ (by decide)

/-! ## C10: the authenticated user record never carries the password
(`app.py` 72-90) -/

/-- A value of the `usuarios` row mapping (`dict(result._mapping)`). -/
inductive Valor where
  | int (n : ℤ)
  | str (s : String)
deriving DecidableEq, Repr

/-- One row of the `usuarios` table
(`SELECT id, nome, email, senha, departamento`). -/
structure LinhaUsuario where
  id : ℤ
  nome : String
  email : String
  senha : String
  departamento : String
deriving DecidableEq, Repr

/-- `dict(result._mapping)`: the fetched row as a key-value mapping. -/
def user_data (u : LinhaUsuario) : List (String × Valor) :=
  [("id", Valor.int u.id), ("nome", Valor.str u.nome),
   ("email", Valor.str u.email), ("senha", Valor.str u.senha),
   ("departamento", Valor.str u.departamento)]

/-- Python `del user_data['senha']`. -/
def delChave (k : String) (d : List (String × Valor)) : List (String × Valor) :=
  d.filter fun kv => kv.1 != k

/-- `fetchone()` for the e-mail equality query (first matching row). -/
def buscar_usuario (usuarios : List LinhaUsuario) (email : String) :
    Option LinhaUsuario :=
  (usuarios.filter (fun u => u.email == email)).head?

/-- `app.py` 72-90, `authenticate_user`.  `bcrypt.checkpw`
(`verify_password`) is an external primitive, abstracted as `checkpw`;
line 73's falsy test on `email`/`senha` is the empty-string test. -/
def authenticate_user (checkpw : String → String → Bool)
    (usuarios : List LinhaUsuario) (email senha : String) :
    Option (List (String × Valor)) :=
  if email = "" ∨ senha = "" then none
  else
    match buscar_usuario usuarios email with
    | none => none
    | some u =>
      if checkpw senha u.senha then some (delChave "senha" (user_data u))
      else none

/-- C10.  Whenever authentication succeeds, the returned user record (the
one stored in the session) has no `"senha"` key: the stored password hash
is removed before the record is returned, for every user row. -/
theorem autenticacao_remove_senha (checkpw : String → String → Bool)
    (usuarios : List LinhaUsuario) (email senha : String)
    (d : List (String × Valor))
    (h : authenticate_user checkpw usuarios email senha = some d) :
    ∀ kv ∈ d, kv.1 ≠ "senha" := by
  unfold authenticate_user at h
  by_cases h0 : email = "" ∨ senha = ""
  · rw [if_pos h0] at h
    exact absurd h (by simp)
  rw [if_neg h0] at h
  cases hb : buscar_usuario usuarios email with
  | none =>
    simp only [hb] at h
    exact absurd h (by simp)
  | some u =>
    simp only [hb] at h
    by_cases hc : checkpw senha u.senha = true
    · rw [if_pos hc] at h
      obtain rfl : delChave "senha" (user_data u) = d := Option.some.inj h
      intro kv hkv
      have := (List.mem_filter.1 hkv).2
      simpa using this
    · rw [if_neg hc] at h
      exact absurd h (by simp)

/-- Witness for C10 on a one-user store with an accepting password check. -/
theorem autenticacao_remove_senha_witness :
    authenticate_user (fun _ _ => true)
      [⟨1, "Ana", "ana@nt.com", "hash123", "RH"⟩] "ana@nt.com" "segredo"
      = some [("id", Valor.int 1), ("nome", Valor.str "Ana"),
          ("email", Valor.str "ana@nt.com"), ("departamento", Valor.str "RH")]
    ∧ ∀ kv ∈ [("id", Valor.int 1), ("nome", Valor.str "Ana"),
          ("email", Valor.str "ana@nt.com"), ("departamento", Valor.str "RH")],
        kv.1 ≠ "senha" :=
  ⟨by decide,
    autenticacao_remove_senha (fun _ _ => true)
      [⟨1, "Ana", "ana@nt.com", "hash123", "RH"⟩] "ana@nt.com" "segredo" _
      (by decide)⟩
